import Mathlib

/-!
Shallow embedding of the data-derivation and filtering pipeline of the
student-dashboard repository (`Student_data.py` and `Student_data_backup.py`).

The pipeline is the pandas block that, from a raw table of student rows
(`Name`, `Math`, `Science`, `English`, `Attendance`), derives
`Average_Score`, `Grade` and `Attendance_Level`, filters rows by the
user-selected grades and attendance levels, and computes the KPI metrics.

Modelling conventions:
* a missing cell / pandas `NaN` is `Option.none`; a present numeric value
  is `some (q : ℚ)` (the float arithmetic of the source is modelled
  exactly over `ℚ`);
* `DataFrame.mean(axis=1)` and `Series.mean` / `Series.max` use pandas'
  default `skipna=True`: they aggregate the present values and yield
  `none` when no value is present;
* every IEEE comparison with `NaN` is false, so the `grade` step
  function run on a missing score falls through to its final branch;
* `pd.cut` yields `none` for values outside all bins.
-/

namespace StudentData

/-- One raw row of `data/student_data2.csv`: columns `Name`, `Math`,
`Science`, `English`, `Attendance`.  Numeric cells may be missing. -/
structure StudentRecord where
  name : String
  math : Option ℚ
  science : Option ℚ
  english : Option ℚ
  attendance : Option ℚ
deriving DecidableEq, Repr

/-- The three attendance buckets, the labels of
`pd.cut(..., labels=["Low", "Medium", "High"])`. -/
inductive Level where
  | Low
  | Medium
  | High
deriving DecidableEq, Repr

/-- pandas row/series mean with the default `skipna=True`: the mean of the
present values, `none` when every value is missing (pandas returns `NaN`
there). -/
def nanMean (xs : List (Option ℚ)) : Option ℚ :=
  let present := xs.filterMap id
  if present.isEmpty then none else some (present.sum / (present.length : ℚ))

/-- pandas `Series.max` with the default `skipna=True`: maximum of the
present values, `none` (pandas `NaN`) when the series has no present
value. -/
def nanMax (xs : List (Option ℚ)) : Option ℚ :=
  (xs.filterMap id).max?

/-- The value pandas aggregations (`mean`, `max`) produce on an empty or
all-missing series: the IEEE float `NaN`.  pandas uses that same `NaN` as
its missing-value sentinel for float columns, so in this embedding it is
the very value that models a missing cell — the source has no separate
explicit "no data" object distinct from `NaN`. -/
def nanValue : Option ℚ :=
  none

/-- `df[subjects].mean(axis=1)` for one row, `subjects = ["Math",
"Science", "English"]` (`Student_data.py` line 22, backup line 44). -/
def Average_Score (r : StudentRecord) : Option ℚ :=
  nanMean [r.math, r.science, r.english]

/-- IEEE-style `score >= c` on a possibly-missing score: every comparison
with `NaN` is false. -/
def scoreGe (score : Option ℚ) (c : ℚ) : Bool :=
  match score with
  | some v => decide (c ≤ v)
  | none => false

/-- The `grade` function of `Student_data.py` lines 24–28 (identical to
`assign_grade` of the backup, lines 46–54):

    if score >= 90: return "A"
    if score >= 80: return "B"
    if score >= 70: return "C"
    return "D"

Applied by `df["Average_Score"].apply(grade)`; a `NaN` score fails every
comparison and reaches `return "D"`. -/
def grade (score : Option ℚ) : String :=
  if scoreGe score 90 then "A"
  else if scoreGe score 80 then "B"
  else if scoreGe score 70 then "C"
  else "D"

/-- `pd.cut(df["Attendance"], bins=[0, 80, 90, 100], labels=["Low",
"Medium", "High"])` of `Student_data.py` lines 32–36: right-closed bins
`(0, 80]`, `(80, 90]`, `(90, 100]`, no `include_lowest`, no clipping;
values outside every bin (and missing values) get `NaN`. -/
def cutAttendance (a : Option ℚ) : Option Level :=
  match a with
  | none => none
  | some v =>
    if 0 < v ∧ v ≤ 80 then some Level.Low
    else if 80 < v ∧ v ≤ 90 then some Level.Medium
    else if 90 < v ∧ v ≤ 100 then some Level.High
    else none

/-- python/pandas `Series.clip(lo, hi)` on one value. -/
def clip (v lo hi : ℚ) : ℚ :=
  max lo (min v hi)

/-- `pd.cut(df["Attendance"].clip(0, 100), bins=[0, 80, 90, 100],
labels=["Low", "Medium", "High"], include_lowest=True)` of
`Student_data_backup.py` lines 58–63: the value is clamped to `[0, 100]`
first, and `include_lowest=True` closes the first bin on the left, so the
bins are `[0, 80]`, `(80, 90]`, `(90, 100]`. -/
def cutClipAttendance (a : Option ℚ) : Option Level :=
  match a with
  | none => none
  | some v =>
    let c := clip v 0 100
    if 0 ≤ c ∧ c ≤ 80 then some Level.Low
    else if 80 < c ∧ c ≤ 90 then some Level.Medium
    else if 90 < c ∧ c ≤ 100 then some Level.High
    else none

/-- A row after the derivation block: the raw row plus the derived
columns `Average_Score`, `Grade` and `Attendance_Level`.  `Grade` is a
plain string because `apply(grade)` returns a string for every row,
including rows whose `Average_Score` is missing. -/
structure DerivedRecord extends StudentRecord where
  Average_Score : Option ℚ
  Grade : String
  Attendance_Level : Option Level
deriving DecidableEq, Repr

/-- The derivation block of `Student_data.py` lines 19–36 applied to one
row: compute `Average_Score`, apply `grade`, bucket `Attendance` with
`cutAttendance`. -/
def deriveRecord (r : StudentRecord) : DerivedRecord :=
  let avg := Average_Score r
  { toStudentRecord := r
    Average_Score := avg
    Grade := grade avg
    Attendance_Level := cutAttendance r.attendance }

/-- The derivation block of `Student_data_backup.py` (`load_data`, lines
43–63) applied to one row: same `Average_Score` and `Grade`, but the
attendance bucketing clamps first and includes the lowest bound. -/
def deriveRecordBackup (r : StudentRecord) : DerivedRecord :=
  let avg := Average_Score r
  { toStudentRecord := r
    Average_Score := avg
    Grade := grade avg
    Attendance_Level := cutClipAttendance r.attendance }

/-- The whole derivation block over the table: pandas column assignments
are row-wise, so the block is a `map` over the rows. -/
def deriveRecords (rs : List StudentRecord) : List DerivedRecord :=
  rs.map deriveRecord

/-- Backup-file variant of `deriveRecords`. -/
def deriveRecordsBackup (rs : List StudentRecord) : List DerivedRecord :=
  rs.map deriveRecordBackup

/-- The row predicate of `Student_data.py` line 57,
`df["Grade"].isin(grades) & df["Attendance_Level"].isin(attendance)`
(backup lines 98–101 are identical): the grade is one of the selected
grades and the attendance level is one of the selected levels.  A row
whose `Attendance_Level` is `NaN` matches no selected level. -/
def matchesFilter (r : DerivedRecord) (grades : List String)
    (levels : List Level) : Bool :=
  decide (r.Grade ∈ grades) &&
    (match r.Attendance_Level with
     | some l => decide (l ∈ levels)
     | none => false)

/-- `filtered = df[df["Grade"].isin(grades) &
df["Attendance_Level"].isin(attendance)]` (`Student_data.py` line 57,
backup lines 98–101): boolean-mask row selection keeps, in order, exactly
the rows whose mask entry is true. -/
def filterRecords (rs : List DerivedRecord) (grades : List String)
    (levels : List Level) : List DerivedRecord :=
  rs.filter (fun r => matchesFilter r grades levels)

/-- The KPI metrics of `Student_data.py` lines 63–67 over the filtered
table: `len(filtered)`, `filtered["Average_Score"].mean()`,
`filtered["Average_Score"].max()`, `filtered["Attendance"].mean()`.
The `round(..., 2)` / `round(..., 1)` and the percent sign on the
displayed metrics are presentation formatting and do not change
presence/absence. -/
structure Summary where
  count : Nat
  meanAverageScore : Option ℚ
  maxAverageScore : Option ℚ
  meanAttendance : Option ℚ
deriving DecidableEq, Repr

/-- Compute the KPI metrics of `Student_data.py` lines 63–67. -/
def summarize (rs : List DerivedRecord) : Summary :=
  { count := rs.length
    meanAverageScore := nanMean (rs.map (fun r => r.Average_Score))
    maxAverageScore := nanMax (rs.map (fun r => r.Average_Score))
    meanAttendance := nanMean (rs.map (fun r => r.attendance)) }

end StudentData
namespace StudentData

/-- The step function `grade` on a present score, characterised by the
four half-open score intervals. -/
theorem grade_char (v : ℚ) :
    (grade (some v) = "A" ↔ 90 ≤ v) ∧ (grade (some v) = "B" ↔ 80 ≤ v ∧ v < 90) ∧
    (grade (some v) = "C" ↔ 70 ≤ v ∧ v < 80) ∧ (grade (some v) = "D" ↔ v < 70) := by
  by_cases h90 : (90:ℚ) ≤ v
  · have h80 : (80:ℚ) ≤ v := by linarith
    have h70 : (70:ℚ) ≤ v := by linarith
    simp [grade, scoreGe, h90, h80, h70]
  · by_cases h80 : (80:ℚ) ≤ v
    · have h70 : (70:ℚ) ≤ v := by linarith
      simp [grade, scoreGe, h90, h80, h70]
      linarith
    · by_cases h70 : (70:ℚ) ≤ v
      · simp [grade, scoreGe, h90, h80, h70]
        linarith
      · simp [grade, scoreGe, h90, h80, h70]
        linarith

/-- The clamped bucketing `cutClipAttendance` of the backup file on a
present value, characterised on unclamped inputs: the clamp folds
everything below 0 into the Low bucket and everything above 100 into the
High bucket, and `include_lowest` puts 0 itself into Low. -/
theorem cutClip_char (v : ℚ) :
    (cutClipAttendance (some v) = some Level.Low ↔ v ≤ 80) ∧
    (cutClipAttendance (some v) = some Level.Medium ↔ 80 < v ∧ v ≤ 90) ∧
    (cutClipAttendance (some v) = some Level.High ↔ 90 < v) ∧
    cutClipAttendance (some v) ≠ none := by
  have hc0 : (0:ℚ) ≤ clip v 0 100 := le_max_left _ _
  have hc100 : clip v 0 100 ≤ 100 := by
    simp [clip, max_le_iff, min_le_iff]
  have h80 : clip v 0 100 ≤ 80 ↔ v ≤ 80 := by
    simp [clip, max_le_iff, min_le_iff]
    norm_num
  have h90 : clip v 0 100 ≤ 90 ↔ v ≤ 90 := by
    simp [clip, max_le_iff, min_le_iff]
    norm_num
  by_cases hv80 : v ≤ 80
  · have heq : cutClipAttendance (some v) = some Level.Low := by
      simp [cutClipAttendance, hc0, h80.mpr hv80]
    refine ⟨by simp [heq, hv80], ?_, ?_, by simp [heq]⟩
    · simp [heq]
      intro h
      linarith
    · simp [heq]
      linarith
  · by_cases hv90 : v ≤ 90
    · have hng : ¬ clip v 0 100 ≤ 80 := fun h => hv80 (h80.mp h)
      have heq : cutClipAttendance (some v) = some Level.Medium := by
        simp [cutClipAttendance, hng, not_le.mp hng, h90.mpr hv90]
      refine ⟨by simp [heq, hv80], by simp [heq, not_le.mp hv80, hv90], ?_, by simp [heq]⟩
      simp [heq]
      linarith
    · have h1 : ¬ clip v 0 100 ≤ 80 := fun h => hv90 (by linarith [h80.mp h])
      have h2 : ¬ clip v 0 100 ≤ 90 := fun h => hv90 (h90.mp h)
      have heq : cutClipAttendance (some v) = some Level.High := by
        simp [cutClipAttendance, h1, h2, not_le.mp h2, hc100]
      refine ⟨?_, ?_, by simp [heq, not_le.mp hv90], by simp [heq]⟩
      · simp [heq]
        linarith
      · simp [heq]
        intro h
        linarith

/-- The boolean filter mask of one row, in propositional form. -/
theorem matchesFilter_iff (r : DerivedRecord) (G : List String) (L : List Level) :
    matchesFilter r G L = true ↔
      r.Grade ∈ G ∧ ∃ l, r.Attendance_Level = some l ∧ l ∈ L := by
  cases h : r.Attendance_Level with
  | none => simp [matchesFilter, h]
  | some l => simp [matchesFilter, h]

/-- Occurrence count of an element in a filtered list. -/
theorem count_filter_eq [DecidableEq α] (p : α → Bool) (l : List α) (a : α) :
    (l.filter p).count a = if p a then l.count a else 0 := by
  induction l with
  | nil => simp
  | cons x xs ih =>
      by_cases hx : p x <;> by_cases hax : a = x <;>
        simp_all [List.filter, List.count_cons]

/-- C1: for every record with a present (non-absent) `Average_Score`, the
derived `Grade` is the four-tier step function of the average: `"A"` iff
the average is at least 90, `"B"` iff it is in `[80, 90)`, `"C"` iff it is
in `[70, 80)`, `"D"` iff it is below 70; there is no upper bound, so any
average above 100 still yields `"A"`. -/
theorem grade_step_function (r : StudentRecord) (v : ℚ)
    (h : (deriveRecord r).Average_Score = some v) :
    ((deriveRecord r).Grade = "A" ↔ 90 ≤ v) ∧
    ((deriveRecord r).Grade = "B" ↔ 80 ≤ v ∧ v < 90) ∧
    ((deriveRecord r).Grade = "C" ↔ 70 ≤ v ∧ v < 80) ∧
    ((deriveRecord r).Grade = "D" ↔ v < 70) ∧
    (100 < v → (deriveRecord r).Grade = "A") := by
  have hA : Average_Score r = some v := h
  have hg : (deriveRecord r).Grade = grade (some v) := by
    simp [deriveRecord, hA]
  rw [hg]
  obtain ⟨h1, h2, h3, h4⟩ := grade_char v
  exact ⟨h1, h2, h3, h4, fun hv => h1.mpr (by linarith)⟩

/-- Witness for C1: a student with all subject scores 95 averages 95 and
gets grade A; all 85 averages 85 and gets grade B; all 105 (no upper
bound) averages 105 and still gets grade A. -/
theorem grade_step_function_witness :
    (deriveRecord ⟨"w", some 95, some 95, some 95, some 90⟩).Grade = "A" ∧
    (deriveRecord ⟨"w", some 85, some 85, some 85, some 90⟩).Grade = "B" ∧
    (deriveRecord ⟨"w", some 105, some 105, some 105, some 90⟩).Grade = "A" :=
  ⟨(grade_step_function _ 95 (by norm_num [deriveRecord, Average_Score, nanMean,
      List.filterMap])).1.mpr (by norm_num),
   (grade_step_function _ 85 (by norm_num [deriveRecord, Average_Score, nanMean,
      List.filterMap])).2.1.mpr (by norm_num),
   (grade_step_function _ 105 (by norm_num [deriveRecord, Average_Score, nanMean,
      List.filterMap])).2.2.2.2 (by norm_num)⟩

/-- C3: when all three subject scores are present, `Average_Score` is
their sum divided by the number of subject columns (3). -/
theorem average_is_mean (r : StudentRecord) (m s e : ℚ)
    (hm : r.math = some m) (hs : r.science = some s) (he : r.english = some e) :
    (deriveRecord r).Average_Score = some ((m + s + e) / 3) := by
  have : Average_Score r = some ((m + s + e) / 3) := by
    simp [Average_Score, nanMean, hm, hs, he, List.filterMap]
    ring
  simpa [deriveRecord] using this

/-- Witness for C3: the spec's end-to-end example row with scores 95, 85,
100 averages to 280/3 (= 93.33…). -/
theorem average_is_mean_witness :
    (deriveRecord ⟨"w", some 95, some 85, some 100, some 92⟩).Average_Score =
      some ((95 + 85 + 100) / 3) :=
  average_is_mean _ 95 85 100 rfl rfl rfl

/-- Counterexample to C5: a record whose subject scores are all missing
has an absent `Average_Score`, yet its derived `Grade` is the string
`"D"` (not absent): `apply(grade)` runs the step function on `NaN`, every
comparison is false, and the final `return "D"` fires. -/
theorem absent_average_grade_claim_false :
    (deriveRecord ⟨"ghost", none, none, none, some 50⟩).Average_Score = none ∧
    (deriveRecord ⟨"ghost", none, none, none, some 50⟩).Grade = "D" :=
  ⟨rfl, rfl⟩

/-- C5 as amended: a record with an absent `Average_Score` always gets
the default grade `"D"` — the derivation never leaves `Grade` absent. -/
theorem absent_average_grade_defaults_D (r : StudentRecord)
    (h : (deriveRecord r).Average_Score = none) :
    (deriveRecord r).Grade = "D" := by
  have hA : Average_Score r = none := h
  simp [deriveRecord, hA, grade, scoreGe]

/-- Witness for amended C5: the all-missing row gets grade `"D"`. -/
theorem absent_average_grade_defaults_D_witness :
    (deriveRecord ⟨"ghost", none, none, none, some 50⟩).Grade = "D" :=
  absent_average_grade_defaults_D ⟨"ghost", none, none, none, some 50⟩ rfl

end StudentData
namespace StudentData

/-- Counterexample to C2 as stated over `Student_data.py`: that file's
`pd.cut` has no `clip` and no `include_lowest`, so a record with
`Attendance = -5` falls outside every bin and gets no attendance level at
all — in particular it does not clamp to 0 and does not land in Low. -/
theorem attendance_neg5_not_low :
    (deriveRecord ⟨"n", some 70, some 70, some 70, some (-5)⟩).Attendance_Level = none ∧
    (deriveRecord ⟨"n", some 70, some 70, some 70, some (-5)⟩).Attendance_Level ≠
      some Level.Low := by
  constructor
  · rfl
  · intro h
    cases h

/-- C2 as amended, proved of the backup file's derivation
(`Student_data_backup.py` lines 58–63), which is the one that clamps:
`Attendance` is clamped to `[0, 100]` and then bucketed, Low exactly on
`(-∞, 80]` after clamping (so 0 and every negative value land in Low),
Medium exactly on `(80, 90]`, High exactly on `(90, ∞)` (so 100 and every
value above 100 land in High), and the level is never absent for a
present attendance value. -/
theorem attendance_bucketing_backup (r : StudentRecord) (v : ℚ)
    (h : r.attendance = some v) :
    ((deriveRecordBackup r).Attendance_Level = some Level.Low ↔ v ≤ 80) ∧
    ((deriveRecordBackup r).Attendance_Level = some Level.Medium ↔ 80 < v ∧ v ≤ 90) ∧
    ((deriveRecordBackup r).Attendance_Level = some Level.High ↔ 90 < v) ∧
    (deriveRecordBackup r).Attendance_Level ≠ none := by
  have hAL : (deriveRecordBackup r).Attendance_Level = cutClipAttendance (some v) := by
    simp [deriveRecordBackup, h]
  rw [hAL]
  exact cutClip_char v

/-- Witness for amended C2: in the backup derivation, attendance −5
clamps to 0 and lands in Low, 80 lands in Low, 100 lands in High. -/
theorem attendance_bucketing_backup_witness :
    (deriveRecordBackup ⟨"w", some 70, some 70, some 70, some (-5)⟩).Attendance_Level =
      some Level.Low ∧
    (deriveRecordBackup ⟨"w", some 70, some 70, some 70, some 80⟩).Attendance_Level =
      some Level.Low ∧
    (deriveRecordBackup ⟨"w", some 70, some 70, some 70, some 100⟩).Attendance_Level =
      some Level.High :=
  ⟨(attendance_bucketing_backup _ (-5) rfl).1.mpr (by norm_num),
   (attendance_bucketing_backup _ 80 rfl).1.mpr (by norm_num),
   (attendance_bucketing_backup _ 100 rfl).2.2.1.mpr (by norm_num)⟩

/-- C4: `filterRecords` returns exactly the subsequence of records whose
grade is among the allowed grades and whose attendance level is among the
allowed levels: the output is a sublist of the input (order preserved, no
reordering), membership in the output is exactly membership in the input
plus the two conditions, and each record occurs in the output exactly as
often as in the input when it matches and never when it does not (no
duplication, nothing extra). -/
theorem filter_exact_subsequence (rs : List DerivedRecord) (G : List String)
    (L : List Level) :
    (filterRecords rs G L).Sublist rs ∧
    (∀ r, r ∈ filterRecords rs G L ↔
      r ∈ rs ∧ r.Grade ∈ G ∧ ∃ l, r.Attendance_Level = some l ∧ l ∈ L) ∧
    (∀ r, (filterRecords rs G L).count r =
      if matchesFilter r G L then rs.count r else 0) := by
  refine ⟨List.filter_sublist rs, fun r => ?_, fun r => count_filter_eq _ rs r⟩
  rw [filterRecords, List.mem_filter, matchesFilter_iff]

/-- Counterexample to C6: on the empty record sequence — the concrete
input the claim is about — the KPI block of `Student_data.py` lines
63–67 does not produce a "no data" marker distinct from `NaN`: its mean
score, max score and mean attendance are all exactly the silent pandas
`NaN` (`nanValue`) that the claim says never appears.  The source has no
other absence representation, so the "never NaN" clause fails. -/
theorem summarize_empty_is_nan :
    (summarize []).meanAverageScore = nanValue ∧
    (summarize []).maxAverageScore = nanValue ∧
    (summarize []).meanAttendance = nanValue :=
  ⟨rfl, rfl, rfl⟩

/-- C6 as amended: the KPI block applied to an empty record sequence
yields count 0 and, for the mean score, the max score and the mean
attendance, the silent pandas empty-aggregation `NaN` — the same value
that marks missing data, not a distinct explicit "no data" marker.
Those `NaN` values are still never the number 0, so "no students"
remains distinguishable from "zero score". -/
theorem summarize_empty_amended :
    summarize [] = { count := 0, meanAverageScore := nanValue,
                     maxAverageScore := nanValue, meanAttendance := nanValue } ∧
    (summarize []).meanAverageScore ≠ some 0 ∧
    (summarize []).maxAverageScore ≠ some 0 ∧
    (summarize []).meanAttendance ≠ some 0 := by
  refine ⟨rfl, ?_, ?_, ?_⟩ <;> intro h <;> cases h

/-- C7: an empty grade selection (or an empty attendance-level
selection) filters out every record, returning the empty sequence rather
than an error, whatever the input. -/
theorem filter_empty_selection (rs : List DerivedRecord) (G : List String)
    (L : List Level) (h : G = [] ∨ L = []) :
    filterRecords rs G L = [] := by
  have hm : ∀ r : DerivedRecord, matchesFilter r G L = false := by
    intro r
    rcases h with h | h <;> subst h <;> cases hA : r.Attendance_Level <;>
      simp [matchesFilter, hA]
  induction rs with
  | nil => rfl
  | cons r t ih => simp [filterRecords, List.filter, hm r] at ih ⊢; exact ih

/-- Witness for C7: a one-record input filtered with no allowed grades
gives the empty sequence. -/
theorem filter_empty_selection_witness :
    filterRecords (deriveRecords [⟨"w", some 95, some 95, some 95, some 92⟩]) []
      [Level.Low, Level.Medium, Level.High] = [] :=
  filter_empty_selection _ [] [Level.Low, Level.Medium, Level.High] (Or.inl rfl)

/-- C8: the derivation block is deterministic and pure — equal inputs
give identical outputs — and the result is a new sequence that carries
the input rows unchanged: projecting every derived row back to its raw
row recovers the input exactly. -/
theorem derive_deterministic_pure (rs rs2 : List StudentRecord) (h : rs = rs2) :
    deriveRecords rs = deriveRecords rs2 ∧
    (deriveRecords rs).map (fun d => d.toStudentRecord) = rs := by
  subst h
  refine ⟨rfl, ?_⟩
  induction rs with
  | nil => rfl
  | cons r t ih =>
      simp [deriveRecords] at ih ⊢
      exact ⟨rfl, ih⟩

/-- Witness for C8: the derivation of a concrete two-row table equals
itself and projects back to the raw rows. -/
theorem derive_deterministic_pure_witness :
    deriveRecords [⟨"a", some 95, some 85, some 100, some 92⟩,
                   ⟨"b", some 60, some 65, some 70, some 75⟩] =
      deriveRecords [⟨"a", some 95, some 85, some 100, some 92⟩,
                     ⟨"b", some 60, some 65, some 70, some 75⟩] ∧
    (deriveRecords [⟨"a", some 95, some 85, some 100, some 92⟩,
                    ⟨"b", some 60, some 65, some 70, some 75⟩]).map
        (fun d => d.toStudentRecord) =
      [⟨"a", some 95, some 85, some 100, some 92⟩,
       ⟨"b", some 60, some 65, some 70, some 75⟩] :=
  derive_deterministic_pure _ _ rfl

/-- C9: filtering is monotone in both selection sets — enlarging the
allowed grades and/or allowed levels can only enlarge the output, and the
smaller output is a sublist (same relative order) of the larger — and
idempotent: re-filtering the output with the same selections returns it
unchanged. -/
theorem filter_monotone_idempotent (rs : List DerivedRecord)
    (G G2 : List String) (L L2 : List Level)
    (hG : ∀ g ∈ G, g ∈ G2) (hL : ∀ l ∈ L, l ∈ L2) :
    (filterRecords rs G L).Sublist (filterRecords rs G2 L2) ∧
    filterRecords (filterRecords rs G L) G L = filterRecords rs G L := by
  constructor
  · refine List.monotone_filter_right rs fun r hr => ?_
    rw [matchesFilter_iff] at hr ⊢
    obtain ⟨hg, l, hl, hmem⟩ := hr
    exact ⟨hG _ hg, l, hl, hL _ hmem⟩
  · rw [filterRecords, filterRecords, List.filter_filter]
    simp [filterRecords]

/-- Witness for C9: on a derived two-row table, filtering by {A} then
enlarging to {A, D} keeps the A-row output a sublist of the larger
output, and re-filtering by {A} is a no-op. -/
theorem filter_monotone_idempotent_witness :
    (filterRecords (deriveRecords [⟨"a", some 95, some 95, some 95, some 92⟩,
        ⟨"b", some 60, some 65, some 70, some 75⟩]) ["A"] [Level.Low, Level.High]).Sublist
      (filterRecords (deriveRecords [⟨"a", some 95, some 95, some 95, some 92⟩,
        ⟨"b", some 60, some 65, some 70, some 75⟩]) ["A", "D"]
        [Level.Low, Level.Medium, Level.High]) ∧
    filterRecords (filterRecords (deriveRecords
        [⟨"a", some 95, some 95, some 95, some 92⟩,
         ⟨"b", some 60, some 65, some 70, some 75⟩]) ["A"] [Level.Low, Level.High])
        ["A"] [Level.Low, Level.High] =
      filterRecords (deriveRecords [⟨"a", some 95, some 95, some 95, some 92⟩,
        ⟨"b", some 60, some 65, some 70, some 75⟩]) ["A"] [Level.Low, Level.High] :=
  filter_monotone_idempotent _ ["A"] ["A", "D"] [Level.Low, Level.High]
    [Level.Low, Level.Medium, Level.High] (by decide) (by decide)

/-- C10: in `Student_data.py` (no clamp, no `include_lowest`), a record
whose attendance is ≤ 0 or > 100 falls outside every `pd.cut` bin, so its
`Attendance_Level` is absent, and its derived row is excluded from the
filtered output for every choice of allowed grades and allowed attendance
levels — including the choice selecting all of Low, Medium and High. -/
theorem out_of_range_attendance_excluded (r : StudentRecord) (v : ℚ)
    (hv : r.attendance = some v) (hout : v ≤ 0 ∨ 100 < v) :
    (deriveRecord r).Attendance_Level = none ∧
    ∀ (rs : List StudentRecord) (G : List String) (L : List Level),
      deriveRecord r ∉ filterRecords (deriveRecords rs) G L := by
  have hAL : (deriveRecord r).Attendance_Level = none := by
    have : cutAttendance (some v) = none := by
      rcases hout with h | h
      · have h1 : ¬(0 < v ∧ v ≤ 80) := fun hc => by linarith [hc.1]
        have h2 : ¬(80 < v ∧ v ≤ 90) := fun hc => by linarith [hc.1]
        have h3 : ¬(90 < v ∧ v ≤ 100) := fun hc => by linarith [hc.1]
        simp [cutAttendance, h1, h2, h3]
      · have h1 : ¬(0 < v ∧ v ≤ 80) := fun hc => by linarith [hc.2]
        have h2 : ¬(80 < v ∧ v ≤ 90) := fun hc => by linarith [hc.2]
        have h3 : ¬(90 < v ∧ v ≤ 100) := fun hc => by linarith [hc.2]
        simp [cutAttendance, h1, h2, h3]
    simp [deriveRecord, hv, this]
  refine ⟨hAL, ?_⟩
  intro rs G L hmem
  have hmatch := (List.mem_filter.mp hmem).2
  rw [matchesFilter_iff] at hmatch
  obtain ⟨-, l, hl, -⟩ := hmatch
  rw [hAL] at hl
  cases hl

/-- Witness for C10: a student with attendance 120 gets no attendance
level and is excluded even when every grade and every level is
selected. -/
theorem out_of_range_attendance_excluded_witness :
    (deriveRecord ⟨"out", some 95, some 95, some 95, some 120⟩).Attendance_Level = none ∧
    deriveRecord ⟨"out", some 95, some 95, some 95, some 120⟩ ∉
      filterRecords (deriveRecords [⟨"out", some 95, some 95, some 95, some 120⟩])
        ["A", "B", "C", "D"] [Level.Low, Level.Medium, Level.High] := by
  have h := out_of_range_attendance_excluded
    ⟨"out", some 95, some 95, some 95, some 120⟩ 120 rfl (Or.inr (by norm_num))
  exact ⟨h.1, h.2 [⟨"out", some 95, some 95, some 95, some 120⟩]
    ["A", "B", "C", "D"] [Level.Low, Level.Medium, Level.High]⟩

end StudentData
